import Mathlib

/-!
# Shallow embedding of the k8sx cross-context search engine

This file embeds the core of the `k8sx` repository: the per-scope searchers
(`SearchByIP`, `SearchByName`), the owner resolver (`GetDeploymentByReplicaSet`),
the cross-context aggregators (`SearchByIPAllContexts`, `SearchByNameAllContexts`)
from `pkg`, and the CLI-level namespace discovery (`GetAccessibleNamespaces`,
`SearchK8sByIPAllContexts`, `SearchK8sByName`, `SearchK8sByNameAllContexts`) from
`cmd`.

External collaborators (the Kubernetes API transport, kubeconfig file loading,
`net.ParseIP`) are modelled as an explicit `World` of oracle functions, exactly at
the interface boundary the Go code uses: list pods / list services / list
namespaces / get replicaset per namespace, kubeconfig load per path, client
construction per context.  Go's `(value, err)` returns are embedded as `Except`:
the Go code returns zero values exactly when the error is non-nil.
-/

namespace K8sx

/-- Models a Go `error` value as produced by the Kubernetes client libraries.
`forbidden` / `unauthorized` are the statuses recognised by
`apierrors.IsForbidden` / `apierrors.IsUnauthorized`; `wrapped` models
`fmt.Errorf("...: %w", err)`. -/
inductive GoError where
  | forbidden
  | unauthorized
  | notFound
  | other (msg : String)
  | wrapped (msg : String) (err : GoError)
deriving Repr, DecidableEq

/-- `IsPermissionError` from pkg: `apierrors.IsForbidden(err) || apierrors.IsUnauthorized(err)`.
All call sites in the repository pass the raw (unwrapped) error from a list/get call. -/
def IsPermissionError : GoError → Bool
  | .forbidden => true
  | .unauthorized => true
  | _ => false

/-- `isPermissionError`, the internal alias of `IsPermissionError` in pkg. -/
def isPermissionError (err : GoError) : Bool :=
  IsPermissionError err

/-- `metav1.OwnerReference`, restricted to the fields the repository reads. -/
structure OwnerReference where
  kind : String
  name : String
deriving Repr, DecidableEq

/-- `corev1.Pod`, restricted to the fields the repository reads. -/
structure Pod where
  name : String
  «namespace» : String
  podIP : String
  hostIP : String
  ownerReferences : List OwnerReference
  labels : List (String × String)
  annotations : List (String × String)
deriving Repr, DecidableEq

/-- `corev1.ServicePort`, carried through unchanged by the searcher. -/
structure ServicePort where
  port : Int
  targetPort : String
  protocol : String
deriving Repr, DecidableEq

/-- One entry of `svc.Status.LoadBalancer.Ingress`. -/
structure LoadBalancerIngress where
  ip : String
deriving Repr, DecidableEq

/-- `corev1.ServiceTypeLoadBalancer`. -/
def ServiceTypeLoadBalancer : String := "LoadBalancer"

/-- `corev1.Service`, restricted to the fields the repository reads. -/
structure Service where
  name : String
  «namespace» : String
  clusterIP : String
  externalIPs : List String
  type : String
  ports : List ServicePort
  selector : List (String × String)
  loadBalancerIngress : List LoadBalancerIngress
deriving Repr, DecidableEq

/-- `appsv1.ReplicaSet`, restricted to the fields the repository reads. -/
structure ReplicaSet where
  name : String
  ownerReferences : List OwnerReference
deriving Repr, DecidableEq

/-- `PodInfo` from pkg. -/
structure PodInfo where
  name : String
  «namespace» : String
  podIP : String
  hostIP : String
  ownerKind : String
  ownerName : String
  labels : List (String × String)
  annotations : List (String × String)
deriving Repr, DecidableEq

/-- `ServiceInfo` from pkg. -/
structure ServiceInfo where
  name : String
  «namespace» : String
  clusterIP : String
  externalIPs : List String
  type : String
  ports : List ServicePort
  selector : List (String × String)
deriving Repr, DecidableEq

/-- `getOwnerInfo` from pkg: kind and name of the pod's first owner reference,
or empty strings when it has none. -/
def getOwnerInfo (pod : Pod) : String × String :=
  match pod.ownerReferences with
  | [] => ("", "")
  | owner :: _ => (owner.kind, owner.name)

/-- The `PodInfo` record the searchers construct for a matching pod
(identical construction in `SearchByIP` and `SearchByName`). -/
def mkPodInfo (pod : Pod) : PodInfo :=
  { name := pod.name
    «namespace» := pod.«namespace»
    podIP := pod.podIP
    hostIP := pod.hostIP
    ownerKind := (getOwnerInfo pod).1
    ownerName := (getOwnerInfo pod).2
    labels := pod.labels
    annotations := pod.annotations }

/-- The `ServiceInfo` record `SearchByIP` constructs for a matching service. -/
def mkServiceInfo (svc : Service) : ServiceInfo :=
  { name := svc.name
    «namespace» := svc.«namespace»
    clusterIP := svc.clusterIP
    externalIPs := svc.externalIPs
    type := svc.type
    ports := svc.ports
    selector := svc.selector }

/-- The pod test inlined in `SearchByIP`:
`pod.Status.PodIP == ip || pod.Status.HostIP == ip`. -/
def podMatchesIP (ip : String) (pod : Pod) : Bool :=
  pod.podIP == ip || pod.hostIP == ip

/-- The `matched` flag computed per service in `SearchByIP`: cluster IP equality,
any external IP equality, or - only for a LoadBalancer-typed service - any
load-balancer ingress IP equality. -/
def svcMatchesIP (ip : String) (svc : Service) : Bool :=
  svc.clusterIP == ip
    || svc.externalIPs.any (fun externalIP => externalIP == ip)
    || (svc.type == ServiceTypeLoadBalancer
          && svc.loadBalancerIngress.any (fun ingress => ingress.ip == ip))

/-- `strings.Contains(s, substr)` from the Go standard library:
`substr` occurs in `s` as a contiguous substring. -/
def stringsContains (s substr : String) : Bool :=
  decide (substr.data <:+: s.data)

/-- The restriction of `kubernetes.Interface` to the calls the repository makes,
one oracle function per call.  `listPodsLimit1` is the separate probe call
`Pods(ns).List(ctx, metav1.ListOptions{Limit: 1})` used for namespace-access
discovery; its outcome is independent of the unbounded `listPods` call. -/
structure Clientset where
  listPods : String → Except GoError (List Pod)
  listPodsLimit1 : String → Except GoError (List Pod)
  listServices : String → Except GoError (List Service)
  listNamespaces : Except GoError (List String)
  getReplicaSet : String → String → Except GoError ReplicaSet

/-- `api.Config` restricted to what the repository reads: the context-name set
(as the list produced by one Go map iteration) and the current context. -/
structure Kubeconfig where
  contexts : List String
  currentContext : String

/-- `K8sClient` from pkg. -/
structure K8sClient where
  clientset : Clientset
  config : Kubeconfig
  namespaces : List String

/-- The external collaborators behind pkg, indexed the way the Go code reaches
them: kubeconfig loading by path (`clientcmd.LoadFromFile`), clientset
construction by (path, resolved context name) (`ClientConfig` +
`kubernetes.NewForConfig`, collapsed into one fallible step), and `net.ParseIP`
success. -/
structure World where
  loadFromFile : String → Except GoError Kubeconfig
  clientFor : String → String → Except GoError Clientset
  netParseIPOk : String → Bool

/-- `LoadKubeConfig` from pkg. -/
def LoadKubeConfig (w : World) (kubeconfigPath : String) : Except GoError Kubeconfig :=
  match w.loadFromFile kubeconfigPath with
  | .error err => .error (.wrapped "failed to load kubeconfig" err)
  | .ok config => .ok config

/-- `GetContexts` from pkg: the keys of `config.Contexts`. -/
def GetContexts (config : Kubeconfig) : List String :=
  config.contexts

/-- `NewK8sClient` from pkg: load the kubeconfig, default an empty context name
to the current context, construct the clientset. -/
def NewK8sClient (w : World) (kubeconfigPath contextName : String)
    (namespaces : List String) : Except GoError K8sClient :=
  match LoadKubeConfig w kubeconfigPath with
  | .error err => .error err
  | .ok config =>
    let ctxName := if contextName = "" then config.currentContext else contextName
    match w.clientFor kubeconfigPath ctxName with
    | .error err => .error (.wrapped "failed to create rest config" err)
    | .ok clientset => .ok ⟨clientset, config, namespaces⟩

/-- `ValidateIP` from pkg: `net.ParseIP(ip) != nil`. -/
def ValidateIP (w : World) (ip : String) : Bool :=
  w.netParseIPOk ip

/-- The namespace loop of `SearchByIP`, with the `pods` / `services`
accumulators explicit.  A permission error on either list call `continue`s to
the next namespace; any other error aborts with `(nil, nil, err)`, embedded as
`.error`. -/
def searchByIPLoop (cs : Clientset) (ip : String)
    (pods : List PodInfo) (services : List ServiceInfo) :
    List String → Except GoError (List PodInfo × List ServiceInfo)
  | [] => .ok (pods, services)
  | ns :: rest =>
    match cs.listPods ns with
    | .error err =>
      if isPermissionError err then
        searchByIPLoop cs ip pods services rest
      else
        .error (.wrapped ("failed to list pods in namespace " ++ ns) err)
    | .ok podList =>
      let pods := pods ++ (podList.filter (podMatchesIP ip)).map mkPodInfo
      match cs.listServices ns with
      | .error err =>
        if isPermissionError err then
          searchByIPLoop cs ip pods services rest
        else
          .error (.wrapped ("failed to list services in namespace " ++ ns) err)
      | .ok svcList =>
        let services := services ++ (svcList.filter (svcMatchesIP ip)).map mkServiceInfo
        searchByIPLoop cs ip pods services rest

/-- `SearchByIP` from pkg: search every namespace of the client for pods and
services matching `ip`. -/
def SearchByIP (c : K8sClient) (ip : String) :
    Except GoError (List PodInfo × List ServiceInfo) :=
  searchByIPLoop c.clientset ip [] [] c.namespaces

/-- The namespace loop of `SearchByName`, with the `pods` accumulator explicit. -/
def searchByNameLoop (cs : Clientset) (name : String) (pods : List PodInfo) :
    List String → Except GoError (List PodInfo)
  | [] => .ok pods
  | ns :: rest =>
    match cs.listPods ns with
    | .error err =>
      if isPermissionError err then
        searchByNameLoop cs name pods rest
      else
        .error (.wrapped ("failed to list pods in namespace " ++ ns) err)
    | .ok podList =>
      searchByNameLoop cs name
        (pods ++ (podList.filter (fun pod => stringsContains pod.name name)).map mkPodInfo)
        rest

/-- `SearchByName` from pkg: search every namespace of the client for pods whose
name contains `name` as a substring. -/
def SearchByName (c : K8sClient) (name : String) : Except GoError (List PodInfo) :=
  searchByNameLoop c.clientset name [] c.namespaces

/-- `GetDeploymentByReplicaSet` from pkg: fetch the ReplicaSet, fail when it has
no owner references, return the name of the first owner reference of kind
`Deployment`, else fail. -/
def GetDeploymentByReplicaSet (c : K8sClient) («namespace» replicaSetName : String) :
    Except GoError String :=
  match c.clientset.getReplicaSet «namespace» replicaSetName with
  | .error err => .error (.wrapped "failed to get replicaset" err)
  | .ok rs =>
    if rs.ownerReferences.length = 0 then
      .error (.other "replicaset has no owner")
    else
      match rs.ownerReferences.find? (fun owner => owner.kind == "Deployment") with
      | some owner => .ok owner.name
      | none => .error (.other "no deployment found for replicaset")

/-- `SearchResultWithContext` from pkg. -/
structure SearchResultWithContext where
  context : String
  «namespace» : String
  pods : List PodInfo
  services : List ServiceInfo
deriving Repr, DecidableEq

/-- `PodResultWithContext` from pkg. -/
structure PodResultWithContext where
  context : String
  «namespace» : String
  pods : List PodInfo
deriving Repr, DecidableEq

/-- The `namespacesToSearch` computation both aggregators perform per context:
a non-empty provided list is used as-is; otherwise all namespaces of the context
are listed, and a listing failure skips the context (`none`). -/
def namespacesToSearch (cs : Clientset) (namespaces : List String) :
    Option (List String) :=
  if namespaces.length > 0 then
    some namespaces
  else
    match cs.listNamespaces with
    | .error _ => none
    | .ok namespaceList => some namespaceList

/-- The inner namespace loop of `SearchByIPAllContexts`: set
`client.Namespaces = [nsName]`, run `SearchByIP`, skip the namespace on error,
and keep the scope only when it found something. -/
def searchByIPNamespaces (cs : Clientset) (config : Kubeconfig)
    (contextName ip : String) : List String → List SearchResultWithContext
  | [] => []
  | nsName :: rest =>
    let tail := searchByIPNamespaces cs config contextName ip rest
    match SearchByIP ⟨cs, config, [nsName]⟩ ip with
    | .error _ => tail
    | .ok (pods, services) =>
      if pods.length > 0 ∨ services.length > 0 then
        ⟨contextName, nsName, pods, services⟩ :: tail
      else
        tail

/-- The context loop of `SearchByIPAllContexts`: construct a client per context,
skip the context when construction fails, resolve the namespaces to search
(skipping the context when namespace listing fails), and search each namespace. -/
def searchByIPContexts (w : World) (kubeconfigPath ip : String)
    (namespaces : List String) : List String → List SearchResultWithContext
  | [] => []
  | contextName :: rest =>
    let tail := searchByIPContexts w kubeconfigPath ip namespaces rest
    match NewK8sClient w kubeconfigPath contextName [] with
    | .error _ => tail
    | .ok client =>
      match namespacesToSearch client.clientset namespaces with
      | none => tail
      | some toSearch =>
        searchByIPNamespaces client.clientset client.config contextName ip toSearch ++ tail

/-- `SearchByIPAllContexts` from pkg. -/
def SearchByIPAllContexts (w : World) (kubeconfigPath ip : String)
    (namespaces : List String) : Except GoError (List SearchResultWithContext) :=
  match LoadKubeConfig w kubeconfigPath with
  | .error err => .error err
  | .ok config =>
    .ok (searchByIPContexts w kubeconfigPath ip namespaces (GetContexts config))

/-- The inner namespace loop of `SearchByNameAllContexts`. -/
def searchByNameNamespaces (cs : Clientset) (config : Kubeconfig)
    (contextName name : String) : List String → List PodResultWithContext
  | [] => []
  | nsName :: rest =>
    let tail := searchByNameNamespaces cs config contextName name rest
    match SearchByName ⟨cs, config, [nsName]⟩ name with
    | .error _ => tail
    | .ok pods =>
      if pods.length > 0 then
        ⟨contextName, nsName, pods⟩ :: tail
      else
        tail

/-- The context loop of `SearchByNameAllContexts`. -/
def searchByNameContexts (w : World) (kubeconfigPath name : String)
    (namespaces : List String) : List String → List PodResultWithContext
  | [] => []
  | contextName :: rest =>
    let tail := searchByNameContexts w kubeconfigPath name namespaces rest
    match NewK8sClient w kubeconfigPath contextName [] with
    | .error _ => tail
    | .ok client =>
      match namespacesToSearch client.clientset namespaces with
      | none => tail
      | some toSearch =>
        searchByNameNamespaces client.clientset client.config contextName name toSearch ++ tail

/-- `SearchByNameAllContexts` from pkg. -/
def SearchByNameAllContexts (w : World) (kubeconfigPath name : String)
    (namespaces : List String) : Except GoError (List PodResultWithContext) :=
  match LoadKubeConfig w kubeconfigPath with
  | .error err => .error err
  | .ok config =>
    .ok (searchByNameContexts w kubeconfigPath name namespaces (GetContexts config))

/-- The per-namespace access check of `GetAccessibleNamespaces`: the bounded
`Pods(ns).List(ctx, metav1.ListOptions{Limit: 1})` probe returned `err == nil`. -/
def probeSucceeds (cs : Clientset) (ns : String) : Bool :=
  match cs.listPodsLimit1 ns with
  | .ok _ => true
  | .error _ => false

/-- `GetAccessibleNamespaces` from cmd: list all namespaces of the (possibly
defaulted) context and keep those whose bounded list-one-pod probe succeeds. -/
def GetAccessibleNamespaces (w : World) (kubeconfigPath contextName : String) :
    Except GoError (List String) :=
  match NewK8sClient w kubeconfigPath contextName [] with
  | .error err => .error err
  | .ok client =>
    match client.clientset.listNamespaces with
    | .error err => .error err
    | .ok namespaceList =>
      .ok (namespaceList.filter (probeSucceeds client.clientset))

/-- The namespace auto-discovery block shared by `SearchK8sByIPAllContexts` and
`SearchK8sByNameAllContexts` in cmd: when no namespaces were given, probe the
current context; adopt the discovered list only when discovery succeeded and
found at least one namespace. -/
def resolveCliNamespaces (w : World) (kubeconfigPath : String)
    (namespaces : List String) : List String :=
  if namespaces.length = 0 then
    match GetAccessibleNamespaces w kubeconfigPath "" with
    | .ok accessible =>
      if accessible.length > 0 then accessible else namespaces
    | .error _ => namespaces
  else
    namespaces

/-- `SearchK8sByIPAllContexts` from cmd, with console rendering dropped: the
returned list is the aggregate result the command displays. -/
def SearchK8sByIPAllContexts (w : World) (kubeconfigPath ip : String)
    (namespaces : List String) : Except GoError (List SearchResultWithContext) :=
  if ValidateIP w ip = false then
    .error (.other ("invalid IP address: " ++ ip))
  else
    SearchByIPAllContexts w kubeconfigPath ip (resolveCliNamespaces w kubeconfigPath namespaces)

/-- `SearchK8sByNameAllContexts` from cmd, with console rendering dropped:
an empty name query is rejected before any search happens. -/
def SearchK8sByNameAllContexts (w : World) (kubeconfigPath name : String)
    (namespaces : List String) : Except GoError (List PodResultWithContext) :=
  if name = "" then
    .error (.other "name cannot be empty")
  else
    SearchByNameAllContexts w kubeconfigPath name (resolveCliNamespaces w kubeconfigPath namespaces)

/-- `K8sSearchConfig` from cmd. -/
structure K8sSearchConfig where
  kubeconfigPath : String
  namespaces : List String
  contextName : String

/-- `SearchK8sByName` from cmd, with console rendering dropped: an empty name
query is rejected, then a client for the configured context and namespaces runs
`SearchByName`. -/
def SearchK8sByName (w : World) (config : K8sSearchConfig) (name : String) :
    Except GoError (List PodInfo) :=
  if name = "" then
    .error (.other "name cannot be empty")
  else
    match NewK8sClient w config.kubeconfigPath config.contextName config.namespaces with
    | .error err => .error err
    | .ok client => SearchByName client name

/-! ## Helper lemmas -/

theorem stringsContains_iff (s substr : String) :
    stringsContains s substr = true ↔ ∃ pre suf, pre ++ substr.data ++ suf = s.data := by
  rw [stringsContains, decide_eq_true_iff]
  exact Iff.rfl

theorem stringsContains_empty (s : String) : stringsContains s "" = true := by
  rw [stringsContains, decide_eq_true_iff]
  exact ⟨[], s.data, rfl⟩

theorem podMatchesIP_iff (ip : String) (pod : Pod) :
    podMatchesIP ip pod = true ↔ (pod.podIP = ip ∨ pod.hostIP = ip) := by
  simp [podMatchesIP]

theorem svcMatchesIP_iff (ip : String) (svc : Service) :
    svcMatchesIP ip svc = true ↔
      (svc.clusterIP = ip ∨ ip ∈ svc.externalIPs ∨
        (svc.type = ServiceTypeLoadBalancer ∧
          ∃ ingress ∈ svc.loadBalancerIngress, ingress.ip = ip)) := by
  simp only [svcMatchesIP, Bool.or_eq_true, Bool.and_eq_true, beq_iff_eq,
    List.any_eq_true]
  constructor
  · rintro ((h | ⟨x, hx, rfl⟩) | ⟨ht, x, hx, hip⟩)
    · exact Or.inl h
    · exact Or.inr (Or.inl hx)
    · exact Or.inr (Or.inr ⟨ht, x, hx, hip⟩)
  · rintro (h | hx | ⟨ht, x, hx, hip⟩)
    · exact Or.inl (Or.inl h)
    · exact Or.inl (Or.inr ⟨ip, hx, rfl⟩)
    · exact Or.inr ⟨ht, x, hx, hip⟩

/-! ## Claims -/

/-- **C5** (confirmed).  IP-match semantics: a listed pod is included in
`SearchByIP` results exactly when its pod IP or host IP equals the query by
string equality; a listed service is included exactly when its cluster IP
equals the query, or some external IP equals it, or - only for a
LoadBalancer-typed service - some load-balancer ingress IP equals it. -/
theorem searchByIP_match_semantics (cs : Clientset) (config : Kubeconfig)
    (ns ip : String) (podList : List Pod) (svcList : List Service)
    (hpods : cs.listPods ns = .ok podList)
    (hsvcs : cs.listServices ns = .ok svcList) :
    SearchByIP ⟨cs, config, [ns]⟩ ip =
      .ok ((podList.filter (podMatchesIP ip)).map mkPodInfo,
           (svcList.filter (svcMatchesIP ip)).map mkServiceInfo) ∧
    (∀ pod : Pod, podMatchesIP ip pod = true ↔ (pod.podIP = ip ∨ pod.hostIP = ip)) ∧
    (∀ svc : Service, svcMatchesIP ip svc = true ↔
      (svc.clusterIP = ip ∨ ip ∈ svc.externalIPs ∨
        (svc.type = ServiceTypeLoadBalancer ∧
          ∃ ingress ∈ svc.loadBalancerIngress, ingress.ip = ip))) := by
  refine ⟨?_, podMatchesIP_iff ip, svcMatchesIP_iff ip⟩
  simp [SearchByIP, searchByIPLoop, hpods, hsvcs]

/-- Witness for C5 at a concrete clientset. -/
def witPod : Pod :=
  ⟨"nginx-deployment-abc123", "default", "10.0.0.1", "192.168.1.1",
    [⟨"ReplicaSet", "nginx-deployment-xyz"⟩], [], []⟩

/-- A concrete LoadBalancer service used by witnesses. -/
def witSvc : Service :=
  ⟨"lb-service", "default", "10.96.0.10", ["203.0.113.1"], "LoadBalancer",
    [], [], [⟨"203.0.113.2"⟩]⟩

/-- A concrete clientset used by witnesses. -/
def witClientset : Clientset :=
  { listPods := fun ns => if ns = "default" then .ok [witPod] else .error .forbidden
    listPodsLimit1 := fun ns => if ns = "default" then .ok [] else .error .forbidden
    listServices := fun ns => if ns = "default" then .ok [witSvc] else .error .forbidden
    listNamespaces := .ok ["default"]
    getReplicaSet := fun ns name =>
      if ns = "default" ∧ name = "nginx-deployment-xyz" then
        .ok ⟨"nginx-deployment-xyz", [⟨"Deployment", "nginx-deployment"⟩]⟩
      else
        .error .notFound }

/-- A concrete kubeconfig used by witnesses. -/
def witConfig : Kubeconfig := ⟨["context-1"], "context-1"⟩

theorem searchByIP_match_semantics_witness :
    witClientset.listPods "default" = .ok [witPod] ∧
    witClientset.listServices "default" = .ok [witSvc] ∧
    (SearchByIP ⟨witClientset, witConfig, ["default"]⟩ "10.0.0.1" =
      .ok (([witPod].filter (podMatchesIP "10.0.0.1")).map mkPodInfo,
           ([witSvc].filter (svcMatchesIP "10.0.0.1")).map mkServiceInfo) ∧
    (∀ pod : Pod, podMatchesIP "10.0.0.1" pod = true ↔
        (pod.podIP = "10.0.0.1" ∨ pod.hostIP = "10.0.0.1")) ∧
    (∀ svc : Service, svcMatchesIP "10.0.0.1" svc = true ↔
      (svc.clusterIP = "10.0.0.1" ∨ "10.0.0.1" ∈ svc.externalIPs ∨
        (svc.type = ServiceTypeLoadBalancer ∧
          ∃ ingress ∈ svc.loadBalancerIngress, ingress.ip = "10.0.0.1")))) :=
  ⟨rfl, rfl,
    searchByIP_match_semantics witClientset witConfig "default" "10.0.0.1"
      [witPod] [witSvc] rfl rfl⟩

/-- **C7** (confirmed).  Owner Resolver contract: `GetDeploymentByReplicaSet`
fails when the ReplicaSet get fails (in particular when it is absent); fails
with `replicaset has no owner` when it has zero owner references; returns the
name of the first owner reference of kind `Deployment` when one exists; and
fails with `no deployment found for replicaset` otherwise. -/
theorem getDeploymentByReplicaSet_contract (c : K8sClient) (ns rsName : String) :
    (∀ e, c.clientset.getReplicaSet ns rsName = .error e →
      GetDeploymentByReplicaSet c ns rsName = .error (.wrapped "failed to get replicaset" e)) ∧
    (∀ rs : ReplicaSet, c.clientset.getReplicaSet ns rsName = .ok rs →
      (rs.ownerReferences = [] →
        GetDeploymentByReplicaSet c ns rsName = .error (.other "replicaset has no owner")) ∧
      (∀ owner, rs.ownerReferences ≠ [] →
        rs.ownerReferences.find? (fun o => o.kind == "Deployment") = some owner →
        GetDeploymentByReplicaSet c ns rsName = .ok owner.name) ∧
      (rs.ownerReferences ≠ [] →
        rs.ownerReferences.find? (fun o => o.kind == "Deployment") = none →
        GetDeploymentByReplicaSet c ns rsName = .error (.other "no deployment found for replicaset"))) := by
  refine ⟨fun e he => ?_, fun rs hrs => ⟨fun hnil => ?_, fun owner hne hfind => ?_, fun hne hfind => ?_⟩⟩
  · simp [GetDeploymentByReplicaSet, he]
  · simp [GetDeploymentByReplicaSet, hrs, hnil]
  · have hlen : ¬ rs.ownerReferences.length = 0 := by
      simpa [List.length_eq_zero] using hne
    simp [GetDeploymentByReplicaSet, hrs, hlen, hfind]
  · have hlen : ¬ rs.ownerReferences.length = 0 := by
      simpa [List.length_eq_zero] using hne
    simp [GetDeploymentByReplicaSet, hrs, hlen, hfind]

theorem getDeploymentByReplicaSet_contract_witness :
    witClientset.getReplicaSet "default" "nginx-deployment-xyz" =
      .ok ⟨"nginx-deployment-xyz", [⟨"Deployment", "nginx-deployment"⟩]⟩ ∧
    ([(⟨"Deployment", "nginx-deployment"⟩ : OwnerReference)] ≠ []) ∧
    [(⟨"Deployment", "nginx-deployment"⟩ : OwnerReference)].find?
        (fun o => o.kind == "Deployment") = some ⟨"Deployment", "nginx-deployment"⟩ ∧
    GetDeploymentByReplicaSet ⟨witClientset, witConfig, []⟩ "default" "nginx-deployment-xyz" =
      .ok "nginx-deployment" :=
  ⟨rfl, by simp, rfl,
    ((getDeploymentByReplicaSet_contract ⟨witClientset, witConfig, []⟩
        "default" "nginx-deployment-xyz").2
      ⟨"nginx-deployment-xyz", [⟨"Deployment", "nginx-deployment"⟩]⟩ rfl).2.1
      ⟨"Deployment", "nginx-deployment"⟩ (by simp) rfl⟩

/-- **C8** (confirmed).  Name-match semantics: for a non-empty query, a listed
pod appears in `SearchByName` results exactly when its name contains the query
as a contiguous, case-sensitive substring; its record carries the kind and name
of its first owner reference, or empty strings when it has none. -/
theorem searchByName_match_semantics (cs : Clientset) (config : Kubeconfig)
    (ns q : String) (podList : List Pod)
    (_hq : q ≠ "")
    (hpods : cs.listPods ns = .ok podList) :
    SearchByName ⟨cs, config, [ns]⟩ q =
      .ok ((podList.filter (fun pod => stringsContains pod.name q)).map mkPodInfo) ∧
    (∀ s : String, stringsContains s q = true ↔
      ∃ pre suf, pre ++ q.data ++ suf = s.data) ∧
    (∀ pod : Pod, pod.ownerReferences = [] →
      (mkPodInfo pod).ownerKind = "" ∧ (mkPodInfo pod).ownerName = "") ∧
    (∀ (pod : Pod) (owner : OwnerReference) (rest : List OwnerReference),
      pod.ownerReferences = owner :: rest →
      (mkPodInfo pod).ownerKind = owner.kind ∧ (mkPodInfo pod).ownerName = owner.name) := by
  refine ⟨?_, fun s => stringsContains_iff s q, fun pod h => ?_, fun pod owner rest h => ?_⟩
  · simp [SearchByName, searchByNameLoop, hpods]
  · simp [mkPodInfo, getOwnerInfo, h]
  · simp [mkPodInfo, getOwnerInfo, h]

theorem searchByName_match_semantics_witness :
    ("nginx" ≠ "") ∧
    witClientset.listPods "default" = .ok [witPod] ∧
    (SearchByName ⟨witClientset, witConfig, ["default"]⟩ "nginx" =
      .ok (([witPod].filter (fun pod => stringsContains pod.name "nginx")).map mkPodInfo) ∧
    (∀ s : String, stringsContains s "nginx" = true ↔
      ∃ pre suf, pre ++ "nginx".data ++ suf = s.data) ∧
    (∀ pod : Pod, pod.ownerReferences = [] →
      (mkPodInfo pod).ownerKind = "" ∧ (mkPodInfo pod).ownerName = "") ∧
    (∀ (pod : Pod) (owner : OwnerReference) (rest : List OwnerReference),
      pod.ownerReferences = owner :: rest →
      (mkPodInfo pod).ownerKind = owner.kind ∧ (mkPodInfo pod).ownerName = owner.name)) :=
  ⟨by simp, rfl,
    searchByName_match_semantics witClientset witConfig "default" "nginx"
      [witPod] (by simp) rfl⟩

/-- The name-search namespace loop with the empty query keeps every listed pod:
`strings.Contains(name, "")` is true for every name. -/
theorem searchByNameLoop_empty_query (cs : Clientset) (podsOf : String → List Pod) :
    ∀ (nss : List String) (acc : List PodInfo),
      (∀ ns ∈ nss, cs.listPods ns = .ok (podsOf ns)) →
      searchByNameLoop cs "" acc nss =
        .ok (acc ++ (nss.map (fun ns => (podsOf ns).map mkPodInfo)).flatten) := by
  intro nss
  induction nss with
  | nil => intro acc _; simp [searchByNameLoop]
  | cons ns rest ih =>
    intro acc hall
    have h1 : cs.listPods ns = .ok (podsOf ns) := hall ns (List.mem_cons_self ns rest)
    have hfilter : (podsOf ns).filter (fun pod => stringsContains pod.name "") = podsOf ns :=
      List.filter_eq_self.mpr (fun p _ => stringsContains_empty p.name)
    simp only [searchByNameLoop, h1, hfilter]
    rw [ih (acc ++ (podsOf ns).map mkPodInfo)
      (fun n hn => hall n (List.mem_cons_of_mem ns hn))]
    simp [List.append_assoc]

/-- **C9** (confirmed).  The core `SearchByName` with an empty query returns
every pod of every searched namespace (the empty substring matches all names);
the empty-query rejection lives only in the CLI callers `SearchK8sByName` and
`SearchK8sByNameAllContexts`. -/
theorem empty_name_matches_all_pods (w : World) (cs : Clientset) (config : Kubeconfig)
    (nss : List String) (podsOf : String → List Pod)
    (cliConfig : K8sSearchConfig) (kubeconfigPath : String) (namespaces : List String)
    (hall : ∀ ns ∈ nss, cs.listPods ns = .ok (podsOf ns)) :
    SearchByName ⟨cs, config, nss⟩ "" =
      .ok ((nss.map (fun ns => (podsOf ns).map mkPodInfo)).flatten) ∧
    SearchK8sByName w cliConfig "" = .error (.other "name cannot be empty") ∧
    SearchK8sByNameAllContexts w kubeconfigPath "" namespaces =
      .error (.other "name cannot be empty") := by
  refine ⟨?_, by simp [SearchK8sByName], by simp [SearchK8sByNameAllContexts]⟩
  simpa [SearchByName] using searchByNameLoop_empty_query cs podsOf nss [] hall

/-- A concrete world whose every client fails, used by witnesses. -/
def witWorld : World :=
  { loadFromFile := fun _ => .ok witConfig
    clientFor := fun _ ctx => if ctx = "context-1" then .ok witClientset else .error .notFound
    netParseIPOk := fun _ => true }

theorem empty_name_matches_all_pods_witness :
    (∀ ns ∈ ["default"], witClientset.listPods ns = .ok [witPod]) ∧
    (SearchByName ⟨witClientset, witConfig, ["default"]⟩ "" =
      .ok ((["default"].map (fun _ => [witPod].map mkPodInfo)).flatten) ∧
    SearchK8sByName witWorld ⟨"cfg", ["default"], ""⟩ "" =
      .error (.other "name cannot be empty") ∧
    SearchK8sByNameAllContexts witWorld "cfg" "" [] =
      .error (.other "name cannot be empty")) :=
  have hall : ∀ ns ∈ ["default"], witClientset.listPods ns = .ok [witPod] := by
    intro ns hns
    rw [List.mem_singleton] at hns
    subst hns
    rfl
  ⟨hall, empty_name_matches_all_pods witWorld witClientset witConfig ["default"]
    (fun _ => [witPod]) ⟨"cfg", ["default"], ""⟩ "cfg" [] hall⟩

/-- **C10** (confirmed).  A non-permission error on a pod-list or service-list
call makes `SearchByIP` return the error alone - the Go code returns
`(nil, nil, err)`, embedded as `.error` - discarding every match already
accumulated, whatever the accumulators hold. -/
theorem non_permission_error_discards_accumulated (cs : Clientset)
    (config : Kubeconfig) (ip ns0 ns : String)
    (accPods : List PodInfo) (accServices : List ServiceInfo)
    (rest : List String) (e : GoError)
    (hperm : isPermissionError e = false) :
    (cs.listPods ns = .error e →
      searchByIPLoop cs ip accPods accServices (ns :: rest) =
        .error (.wrapped ("failed to list pods in namespace " ++ ns) e)) ∧
    (∀ podList, cs.listPods ns = .ok podList → cs.listServices ns = .error e →
      searchByIPLoop cs ip accPods accServices (ns :: rest) =
        .error (.wrapped ("failed to list services in namespace " ++ ns) e)) ∧
    (∀ podList0 svcList0, cs.listPods ns0 = .ok podList0 →
      cs.listServices ns0 = .ok svcList0 → cs.listPods ns = .error e →
      SearchByIP ⟨cs, config, [ns0, ns]⟩ ip =
        .error (.wrapped ("failed to list pods in namespace " ++ ns) e)) := by
  refine ⟨fun h => ?_, fun podList h1 h2 => ?_, fun podList0 svcList0 h0 h0' h => ?_⟩
  · simp [searchByIPLoop, h, hperm]
  · simp [searchByIPLoop, h1, h2, hperm]
  · simp [SearchByIP, searchByIPLoop, h0, h0', h, hperm]

/-- A clientset whose pod listing fails with a transport error outside
`"ok-ns"`, used for the C10 witness. -/
def c10Clientset : Clientset :=
  { listPods := fun ns =>
      if ns = "ok-ns" then .ok [witPod] else .error (.other "connection refused")
    listPodsLimit1 := fun _ => .ok []
    listServices := fun _ => .ok []
    listNamespaces := .ok []
    getReplicaSet := fun _ _ => .error .notFound }

theorem non_permission_error_discards_accumulated_witness :
    isPermissionError (.other "connection refused") = false ∧
    c10Clientset.listPods "ok-ns" = .ok [witPod] ∧
    c10Clientset.listServices "ok-ns" = .ok [] ∧
    c10Clientset.listPods "bad-ns" = .error (.other "connection refused") ∧
    SearchByIP ⟨c10Clientset, witConfig, ["ok-ns", "bad-ns"]⟩ "10.0.0.1" =
      .error (.wrapped ("failed to list pods in namespace " ++ "bad-ns")
        (.other "connection refused")) :=
  ⟨rfl, rfl, rfl, rfl,
    (non_permission_error_discards_accumulated c10Clientset witConfig "10.0.0.1"
        "ok-ns" "bad-ns" [] [] [] (.other "connection refused") rfl).2.2
      [witPod] [] rfl rfl rfl⟩

/-- **C2** (corrected).  What the code actually does with a permission error:
on the service-list call it skips only that scope's services; on the pod-list
call the `continue` skips the rest of the namespace iteration, so the scope's
service list is never consulted either.  In both cases previously accumulated
matches are kept and no error is surfaced. -/
theorem permission_error_skip_granularity (cs : Clientset) (ip ns : String)
    (accPods : List PodInfo) (accServices : List ServiceInfo)
    (rest : List String) (e : GoError)
    (hperm : isPermissionError e = true) :
    (cs.listPods ns = .error e →
      searchByIPLoop cs ip accPods accServices (ns :: rest) =
        searchByIPLoop cs ip accPods accServices rest) ∧
    (∀ podList, cs.listPods ns = .ok podList → cs.listServices ns = .error e →
      searchByIPLoop cs ip accPods accServices (ns :: rest) =
        searchByIPLoop cs ip
          (accPods ++ (podList.filter (podMatchesIP ip)).map mkPodInfo)
          accServices rest) := by
  refine ⟨fun h => ?_, fun podList h1 h2 => ?_⟩
  · simp [searchByIPLoop, h, hperm]
  · simp [searchByIPLoop, h1, h2, hperm]

/-- A ClusterIP service matching the query IP, in a namespace whose pod listing
is forbidden: the C2 counterexample data. -/
def c2Svc : Service := ⟨"test-service", "ns1", "10.0.0.5", [], "ClusterIP", [], [], []⟩

/-- Clientset for the C2 counterexample: pod listing forbidden, service listing
allowed and containing a match. -/
def c2Clientset : Clientset :=
  { listPods := fun _ => .error .forbidden
    listPodsLimit1 := fun _ => .error .forbidden
    listServices := fun _ => .ok [c2Svc]
    listNamespaces := .ok ["ns1"]
    getReplicaSet := fun _ _ => .error .notFound }

/-- C2 as stated is false: with the pod listing of `"ns1"` forbidden and its
service listing containing a service matching the query, `SearchByIP` returns
no services at all - the other resource kind of the same scope is lost, not
kept. -/
theorem pod_forbidden_drops_services_counterexample :
    c2Clientset.listPods "ns1" = .error .forbidden ∧
    IsPermissionError .forbidden = true ∧
    c2Clientset.listServices "ns1" = .ok [c2Svc] ∧
    svcMatchesIP "10.0.0.5" c2Svc = true ∧
    SearchByIP ⟨c2Clientset, witConfig, ["ns1"]⟩ "10.0.0.5" = .ok ([], []) :=
  ⟨rfl, rfl, rfl, rfl, rfl⟩

theorem permission_error_skip_granularity_witness :
    isPermissionError GoError.forbidden = true ∧
    c2Clientset.listPods "ns1" = .error .forbidden ∧
    searchByIPLoop c2Clientset "10.0.0.5" [] [] ["ns1"] =
      searchByIPLoop c2Clientset "10.0.0.5" [] [] [] :=
  ⟨rfl, rfl,
    (permission_error_skip_granularity c2Clientset "10.0.0.5" "ns1" [] [] []
      .forbidden rfl).1 rfl⟩

/-- **C4** (confirmed).  Fan-out failure isolation: when client construction
fails for a context, both aggregators behave on `contextName :: rest` exactly
as on `rest` - the failed context contributes nothing and every remaining
context is still searched. -/
theorem client_failure_skips_context (w : World)
    (kubeconfigPath ip name : String) (namespaces : List String)
    (contextName : String) (rest : List String) (e : GoError)
    (h : NewK8sClient w kubeconfigPath contextName [] = .error e) :
    searchByIPContexts w kubeconfigPath ip namespaces (contextName :: rest) =
      searchByIPContexts w kubeconfigPath ip namespaces rest ∧
    searchByNameContexts w kubeconfigPath name namespaces (contextName :: rest) =
      searchByNameContexts w kubeconfigPath name namespaces rest := by
  constructor
  · simp [searchByIPContexts, h]
  · simp [searchByNameContexts, h]

/-- A world with one unreachable context, used for the C4 witness. -/
def c4World : World :=
  { loadFromFile := fun _ => .ok ⟨["down", "context-1"], "context-1"⟩
    clientFor := fun _ ctx => if ctx = "context-1" then .ok witClientset
      else .error (.other "unreachable")
    netParseIPOk := fun _ => true }

theorem client_failure_skips_context_witness :
    NewK8sClient c4World "cfg" "down" [] =
      .error (.wrapped "failed to create rest config" (.other "unreachable")) ∧
    searchByIPContexts c4World "cfg" "10.0.0.1" ["default"] ["down", "context-1"] =
      searchByIPContexts c4World "cfg" "10.0.0.1" ["default"] ["context-1"] ∧
    searchByNameContexts c4World "cfg" "nginx" ["default"] ["down", "context-1"] =
      searchByNameContexts c4World "cfg" "nginx" ["default"] ["context-1"] :=
  ⟨rfl,
    (client_failure_skips_context c4World "cfg" "10.0.0.1" "nginx" ["default"]
      "down" ["context-1"] (.wrapped "failed to create rest config" (.other "unreachable"))
      rfl).1,
    (client_failure_skips_context c4World "cfg" "10.0.0.1" "nginx" ["default"]
      "down" ["context-1"] (.wrapped "failed to create rest config" (.other "unreachable"))
      rfl).2⟩

/-- Every scope kept by the IP namespace loop holds at least one pod or one
service. -/
theorem mem_searchByIPNamespaces (cs : Clientset) (config : Kubeconfig)
    (contextName ip : String) :
    ∀ (nss : List String) (r : SearchResultWithContext),
      r ∈ searchByIPNamespaces cs config contextName ip nss →
      r.pods ≠ [] ∨ r.services ≠ [] := by
  intro nss
  induction nss with
  | nil => intro r h; simp [searchByIPNamespaces] at h
  | cons ns rest ih =>
    intro r h
    simp only [searchByIPNamespaces] at h
    cases hres : SearchByIP ⟨cs, config, [ns]⟩ ip with
    | error e =>
      rw [hres] at h
      exact ih r h
    | ok pr =>
      obtain ⟨pods, services⟩ := pr
      simp only [hres] at h
      by_cases hcond : pods.length > 0 ∨ services.length > 0
      · rw [if_pos hcond] at h
        rcases List.mem_cons.mp h with rfl | h'
        · rcases hcond with hp | hs
          · exact Or.inl (by simpa using List.length_pos.mp hp)
          · exact Or.inr (by simpa using List.length_pos.mp hs)
        · exact ih r h'
      · rw [if_neg hcond] at h
        exact ih r h

/-- Every scope kept by the IP context loop holds at least one pod or one
service. -/
theorem mem_searchByIPContexts (w : World) (kubeconfigPath ip : String)
    (namespaces : List String) :
    ∀ (ctxs : List String) (r : SearchResultWithContext),
      r ∈ searchByIPContexts w kubeconfigPath ip namespaces ctxs →
      r.pods ≠ [] ∨ r.services ≠ [] := by
  intro ctxs
  induction ctxs with
  | nil => intro r h; simp [searchByIPContexts] at h
  | cons ctx rest ih =>
    intro r h
    simp only [searchByIPContexts] at h
    split at h
    · exact ih r h
    · split at h
      · exact ih r h
      · rcases List.mem_append.mp h with h' | h'
        · rename_i client _ _ toSearch _
          exact mem_searchByIPNamespaces client.clientset client.config ctx ip toSearch r h'
        · exact ih r h'

/-- Every scope kept by the name namespace loop holds at least one pod. -/
theorem mem_searchByNameNamespaces (cs : Clientset) (config : Kubeconfig)
    (contextName name : String) :
    ∀ (nss : List String) (r : PodResultWithContext),
      r ∈ searchByNameNamespaces cs config contextName name nss →
      r.pods ≠ [] := by
  intro nss
  induction nss with
  | nil => intro r h; simp [searchByNameNamespaces] at h
  | cons ns rest ih =>
    intro r h
    simp only [searchByNameNamespaces] at h
    cases hres : SearchByName ⟨cs, config, [ns]⟩ name with
    | error e =>
      rw [hres] at h
      exact ih r h
    | ok pods =>
      simp only [hres] at h
      by_cases hcond : pods.length > 0
      · rw [if_pos hcond] at h
        rcases List.mem_cons.mp h with rfl | h'
        · exact (by simpa using List.length_pos.mp hcond)
        · exact ih r h'
      · rw [if_neg hcond] at h
        exact ih r h

/-- Every scope kept by the name context loop holds at least one pod. -/
theorem mem_searchByNameContexts (w : World) (kubeconfigPath name : String)
    (namespaces : List String) :
    ∀ (ctxs : List String) (r : PodResultWithContext),
      r ∈ searchByNameContexts w kubeconfigPath name namespaces ctxs →
      r.pods ≠ [] := by
  intro ctxs
  induction ctxs with
  | nil => intro r h; simp [searchByNameContexts] at h
  | cons ctx rest ih =>
    intro r h
    simp only [searchByNameContexts] at h
    split at h
    · exact ih r h
    · split at h
      · exact ih r h
      · rcases List.mem_append.mp h with h' | h'
        · rename_i client _ _ toSearch _
          exact mem_searchByNameNamespaces client.clientset client.config ctx name toSearch r h'
        · exact ih r h'

/-- **C6** (confirmed).  Empty-scope dropping invariant: every `ScopedResult`
in an aggregate search result contains at least one pod or one service (name
search: at least one pod); a scope that found nothing never appears with empty
lists. -/
theorem scoped_results_nonempty (w : World) (kubeconfigPath ip name : String)
    (namespaces : List String)
    (ipResults : List SearchResultWithContext) (nameResults : List PodResultWithContext)
    (hip : SearchByIPAllContexts w kubeconfigPath ip namespaces = .ok ipResults)
    (hname : SearchByNameAllContexts w kubeconfigPath name namespaces = .ok nameResults) :
    (∀ r ∈ ipResults, r.pods ≠ [] ∨ r.services ≠ []) ∧
    (∀ r ∈ nameResults, r.pods ≠ []) := by
  cases hload : w.loadFromFile kubeconfigPath with
  | error e =>
    rw [SearchByIPAllContexts, LoadKubeConfig, hload] at hip
    cases hip
  | ok config =>
    rw [SearchByIPAllContexts, LoadKubeConfig, hload] at hip
    rw [SearchByNameAllContexts, LoadKubeConfig, hload] at hname
    cases hip
    cases hname
    exact ⟨fun r hr => mem_searchByIPContexts w kubeconfigPath ip namespaces
        (GetContexts config) r hr,
      fun r hr => mem_searchByNameContexts w kubeconfigPath name namespaces
        (GetContexts config) r hr⟩

theorem scoped_results_nonempty_witness :
    SearchByIPAllContexts c4World "cfg" "10.0.0.1" ["default"] =
      .ok [⟨"context-1", "default", [mkPodInfo witPod], []⟩] ∧
    SearchByNameAllContexts c4World "cfg" "nginx" ["default"] =
      .ok [⟨"context-1", "default", [mkPodInfo witPod]⟩] ∧
    ((∀ r ∈ [(⟨"context-1", "default", [mkPodInfo witPod], []⟩ : SearchResultWithContext)],
        r.pods ≠ [] ∨ r.services ≠ []) ∧
     (∀ r ∈ [(⟨"context-1", "default", [mkPodInfo witPod]⟩ : PodResultWithContext)],
        r.pods ≠ [])) :=
  ⟨rfl, rfl,
    scoped_results_nonempty c4World "cfg" "10.0.0.1" "nginx" ["default"]
      [⟨"context-1", "default", [mkPodInfo witPod], []⟩]
      [⟨"context-1", "default", [mkPodInfo witPod]⟩] rfl rfl⟩

/-- **C1** (corrected).  The aggregate operations fail exactly when the
top-level kubeconfig load fails; on a successful load the merged list of
included scopes is returned with no error - even when no searchable scope
exists at all. -/
theorem aggregate_error_iff_kubeconfig_load_failure (w : World)
    (kubeconfigPath ip name : String) (namespaces : List String) :
    ((∃ e, SearchByIPAllContexts w kubeconfigPath ip namespaces = .error e) ↔
      (∃ e, w.loadFromFile kubeconfigPath = .error e)) ∧
    ((∃ e, SearchByNameAllContexts w kubeconfigPath name namespaces = .error e) ↔
      (∃ e, w.loadFromFile kubeconfigPath = .error e)) ∧
    (∀ config, w.loadFromFile kubeconfigPath = .ok config →
      SearchByIPAllContexts w kubeconfigPath ip namespaces =
        .ok (searchByIPContexts w kubeconfigPath ip namespaces (GetContexts config)) ∧
      SearchByNameAllContexts w kubeconfigPath name namespaces =
        .ok (searchByNameContexts w kubeconfigPath name namespaces (GetContexts config))) := by
  cases hload : w.loadFromFile kubeconfigPath with
  | error e =>
    refine ⟨?_, ?_, ?_⟩
    · simp [SearchByIPAllContexts, LoadKubeConfig, hload]
    · simp [SearchByNameAllContexts, LoadKubeConfig, hload]
    · intro config hconfig
      cases hconfig
  | ok config =>
    refine ⟨?_, ?_, ?_⟩
    · simp [SearchByIPAllContexts, LoadKubeConfig, hload]
    · simp [SearchByNameAllContexts, LoadKubeConfig, hload]
    · intro config' hconfig
      cases hconfig
      exact ⟨by simp [SearchByIPAllContexts, LoadKubeConfig, hload],
             by simp [SearchByNameAllContexts, LoadKubeConfig, hload]⟩

/-- A world whose kubeconfig loads with zero contexts: no searchable scope
exists at all. -/
def noScopeWorld : World :=
  { loadFromFile := fun _ => .ok ⟨[], "none"⟩
    clientFor := fun _ _ => .error (.other "unreachable")
    netParseIPOk := fun _ => true }

/-- C1 as stated is false: with a successfully loading kubeconfig that holds
zero contexts, no searchable scope exists at all, yet both aggregate searches
return an empty list with `nil` error instead of a non-nil error. -/
theorem no_scope_returns_ok_counterexample :
    noScopeWorld.loadFromFile "cfg" = .ok ⟨[], "none"⟩ ∧
    GetContexts ⟨[], "none"⟩ = [] ∧
    SearchByIPAllContexts noScopeWorld "cfg" "10.0.0.1" [] = .ok [] ∧
    SearchByNameAllContexts noScopeWorld "cfg" "nginx" [] = .ok [] :=
  ⟨rfl, rfl, rfl, rfl⟩

/-- A world whose kubeconfig file fails to load. -/
def loadFailWorld : World :=
  { loadFromFile := fun _ => .error (.other "no such file")
    clientFor := fun _ _ => .error (.other "unreachable")
    netParseIPOk := fun _ => true }

theorem aggregate_error_iff_kubeconfig_load_failure_witness :
    (∃ e, SearchByIPAllContexts loadFailWorld "cfg" "10.0.0.1" [] = .error e) ∧
    (∃ e, SearchByNameAllContexts loadFailWorld "cfg" "nginx" [] = .error e) :=
  ⟨(aggregate_error_iff_kubeconfig_load_failure loadFailWorld "cfg" "10.0.0.1"
      "nginx" []).1.mpr ⟨.other "no such file", rfl⟩,
   (aggregate_error_iff_kubeconfig_load_failure loadFailWorld "cfg" "10.0.0.1"
      "nginx" []).2.1.mpr ⟨.other "no such file", rfl⟩⟩

/-- **C3** (corrected).  Namespace auto-discovery as implemented: it probes only
the (current) context `GetAccessibleNamespaces` is called on - a namespace is
discovered iff it is listed by that context's API and its bounded list-one-pod
probe succeeds; when discovery yields a non-empty list the CLI makes every
context search exactly that list; when the CLI keeps the empty list, each
context searches all namespaces its own API lists, with no probing. -/
theorem namespace_discovery_current_context_only (w : World)
    (kubeconfigPath contextName : String) (client : K8sClient) (nss : List String)
    (hclient : NewK8sClient w kubeconfigPath contextName [] = .ok client)
    (hns : client.clientset.listNamespaces = .ok nss) :
    (GetAccessibleNamespaces w kubeconfigPath contextName =
      .ok (nss.filter (probeSucceeds client.clientset)) ∧
     ∀ ns, ns ∈ nss.filter (probeSucceeds client.clientset) ↔
       (ns ∈ nss ∧ ∃ podList, client.clientset.listPodsLimit1 ns = .ok podList)) ∧
    (∀ accessible, GetAccessibleNamespaces w kubeconfigPath "" = .ok accessible →
      0 < accessible.length →
      resolveCliNamespaces w kubeconfigPath [] = accessible ∧
      ∀ cs : Clientset, namespacesToSearch cs accessible = some accessible) ∧
    (namespacesToSearch client.clientset [] = some nss) := by
  refine ⟨⟨?_, ?_⟩, ?_, ?_⟩
  · simp only [GetAccessibleNamespaces, hclient, hns, probeSucceeds]
  · intro ns
    rw [List.mem_filter]
    constructor
    · rintro ⟨hmem, hp⟩
      refine ⟨hmem, ?_⟩
      rw [probeSucceeds] at hp
      cases hq : client.clientset.listPodsLimit1 ns with
      | ok podList => exact ⟨podList, rfl⟩
      | error e => rw [hq] at hp; cases hp
    · rintro ⟨hmem, podList, hp⟩
      exact ⟨hmem, by rw [probeSucceeds, hp]⟩
  · intro accessible hacc hlen
    constructor
    · simp [resolveCliNamespaces, hacc, hlen]
    · intro cs
      simp [namespacesToSearch, hlen]
  · simp [namespacesToSearch, hns]

theorem namespace_discovery_current_context_only_witness :
    NewK8sClient witWorld "cfg" "context-1" [] = .ok ⟨witClientset, witConfig, []⟩ ∧
    witClientset.listNamespaces = .ok ["default"] ∧
    ((GetAccessibleNamespaces witWorld "cfg" "context-1" =
        .ok (["default"].filter (probeSucceeds witClientset)) ∧
      ∀ ns, ns ∈ ["default"].filter (probeSucceeds witClientset) ↔
        (ns ∈ ["default"] ∧ ∃ podList, witClientset.listPodsLimit1 ns = .ok podList)) ∧
     (∀ accessible, GetAccessibleNamespaces witWorld "cfg" "" = .ok accessible →
        0 < accessible.length →
        resolveCliNamespaces witWorld "cfg" [] = accessible ∧
        ∀ cs : Clientset, namespacesToSearch cs accessible = some accessible) ∧
     (namespacesToSearch witClientset [] = some ["default"])) :=
  ⟨rfl, rfl,
    namespace_discovery_current_context_only witWorld "cfg" "context-1"
      ⟨witClientset, witConfig, []⟩ ["default"] rfl rfl⟩

/-- Clientset of context `c1` in the C3 counterexample: lists namespace `nsA`,
whose probe succeeds; all searches there come up empty. -/
def ctx1Clientset : Clientset :=
  { listPods := fun _ => .ok []
    listPodsLimit1 := fun ns => if ns = "nsA" then .ok [] else .error .forbidden
    listServices := fun _ => .ok []
    listNamespaces := .ok ["nsA"]
    getReplicaSet := fun _ _ => .error .notFound }

/-- The pod living in namespace `nsA` of context `c2`. -/
def probedPod : Pod := ⟨"payments-api-1", "nsA", "10.0.0.1", "192.168.0.9", [], [], []⟩

/-- Clientset of context `c2` in the C3 counterexample: its API lists only
`nsB`, every probe in it is forbidden, yet listing pods in `nsA` works and
holds a match. -/
def ctx2Clientset : Clientset :=
  { listPods := fun ns => if ns = "nsA" then .ok [probedPod] else .error .forbidden
    listPodsLimit1 := fun _ => .error .forbidden
    listServices := fun _ => .ok []
    listNamespaces := .ok ["nsB"]
    getReplicaSet := fun _ _ => .error .notFound }

/-- Two-context world for the C3 counterexample; `c1` is the current context. -/
def discoveryWorld : World :=
  { loadFromFile := fun _ => .ok ⟨["c1", "c2"], "c1"⟩
    clientFor := fun _ ctx =>
      if ctx = "c1" then .ok ctx1Clientset
      else if ctx = "c2" then .ok ctx2Clientset
      else .error .notFound
    netParseIPOk := fun _ => true }

/-- C3 as stated is false: with an empty explicit namespace list, the search in
context `c2` runs over namespace `nsA` - discovered against the current context
`c1` - even though `nsA` fails the probe in `c2` (so is not accessible there by
the claim's own criterion) and `c2`'s accessible-namespace set is empty. -/
theorem searched_namespaces_not_per_context_accessible :
    SearchK8sByIPAllContexts discoveryWorld "cfg" "10.0.0.1" [] =
      .ok [⟨"c2", "nsA", [mkPodInfo probedPod], []⟩] ∧
    ctx2Clientset.listPodsLimit1 "nsA" = .error .forbidden ∧
    GetAccessibleNamespaces discoveryWorld "cfg" "c2" = .ok [] :=
  ⟨rfl, rfl, rfl⟩

end K8sx
